import Mathlib

/-!
Shallow embedding of `src/arcade_tools/GameElement.py` (arcade-tools).

The file defines, in Lean, the data model and the operations of the
`GameElement` class: construction (`GameElement.init`, from `__init__`),
`update`, `collided_with` and `draw`, together with the pygame
primitives they rely on (`pygame.Rect`, `pygame.Surface`,
`pygame.math.Vector2`, `Rect.move_ip`, `Surface.get_rect`,
`Surface.blit`, `pygame.get_init`, `pygame.image.load`).

Modelling choices:
* pygame `Rect` stores C `int` coordinates; a float passed to
  `move_ip` is converted by a C cast, i.e. truncated toward zero.
  We model the numeric values flowing through `velocity.x * dt` as
  exact rationals (ℚ) and the C cast as `ratTrunc` below.
* A pygame `Surface` is, for the purposes of this class, its pixel
  dimensions (the class only ever queries `get_rect` and blits it).
* The ambient pygame process state is a `Pygame` record: whether
  `pygame.init()` has been called, and the image loader
  (`pygame.image.load` composed with `convert_alpha`, which preserves
  dimensions), which may fail on a missing or undecodable file.
* Python exceptions become an `Except InitError` result on the
  constructor; the other three methods cannot fail.
* A drawing target is modelled as the trace of blit operations that
  have been applied to it, so that `draw`'s one effect is observable.
-/

/-- Truncation of a rational toward zero: the value the C cast
`(int)d` produces for the (exact) value `d`.  On a reduced fraction
this is the numerator tdiv the denominator (`Int.tdiv` rounds toward
zero). -/
def ratTrunc (q : ℚ) : ℤ :=
  q.num.tdiv q.den

/-- The type `pygame.math.Vector2`: a 2D vector of (double precision)
numbers, modelled with exact rationals. -/
structure Vec2 where
  x : ℚ
  y : ℚ
deriving DecidableEq, Repr

/-- The type `pygame.Surface`: only its pixel dimensions are relevant
to `GameElement`. -/
structure Surface where
  width : ℕ
  height : ℕ
deriving DecidableEq, Repr

/-- The type `pygame.Rect`: integer top-left position and size. -/
structure Rect where
  x : ℤ
  y : ℤ
  width : ℕ
  height : ℕ
deriving DecidableEq, Repr

/-- The method `pygame.Rect.move_ip(dx, dy)`: translate the rectangle
in place.  Float arguments are truncated toward zero (a C cast in
pygame's argument conversion). -/
def Rect.move_ip (r : Rect) (dx dy : ℚ) : Rect :=
  { r with x := r.x + ratTrunc dx, y := r.y + ratTrunc dy }

/-- The method `surface.get_rect(topleft=(x, y))`: the surface's
natural rectangle, placed with its top-left corner at `(x, y)`. -/
def Surface.get_rect (s : Surface) (x y : ℤ) : Rect :=
  { x := x, y := y, width := s.width, height := s.height }

/-- The method `surface.convert_alpha()`: changes the pixel format for
faster blitting; the dimensions (all we model) are unchanged. -/
def Surface.convert_alpha (s : Surface) : Surface := s

/-- A `pygame.event.Event`; `GameElement.update` receives an optional
list of these and ignores it, so only an identity is modelled. -/
structure PygameEvent where
  kind : ℕ
deriving DecidableEq, Repr

/-- One blit recorded on a drawing target: which surface was composited
and at which top-left position. -/
structure BlitOp where
  src : Surface
  pos : ℤ × ℤ
deriving DecidableEq, Repr

/-- A drawing target (`screen`), modelled as the trace of blits applied
to it so far. -/
def ScreenTrace := List BlitOp
deriving DecidableEq

/-- The method `screen.blit(image, topleft)`: composite `image` onto the screen at
the given position (recorded on the trace). -/
def ScreenTrace.blit (screen : ScreenTrace) (src : Surface) (pos : ℤ × ℤ) :
    ScreenTrace :=
  List.append screen [{ src := src, pos := pos }]

/-- The ambient pygame process state: `initialized` is
`pygame.get_init()`, and `loadImage` is `pygame.image.load(path)`
followed by `convert_alpha()` (`none` when loading or decoding
fails). -/
structure Pygame where
  initialized : Bool
  loadImage : String → Option Surface

/-- The `image` argument of `GameElement.__init__` as Python receives
it: a file-path string, a `pygame.Surface`, or any other object
(which the `isinstance` chain rejects). -/
inductive ImageArg where
  | path (name : String)
  | surface (s : Surface)
  | invalid
deriving DecidableEq

/-- The first fragment of the `RuntimeError` message raised when
pygame is not initialized (before the class name). -/
def uninitMsgPre : String :=
  "Pygame must be initialized before creating a "

/-- The second fragment of the `RuntimeError` message raised when
pygame is not initialized (after the class name). -/
def uninitMsgPost : String :=
  " object. Please call pygame.init() before using this class."

/-- The `ValueError` message for an `image` argument that is neither a
file path nor a surface. -/
def invalidImageMsg : String :=
  "The image parameter must be either a file path or a pygame.Surface object."

/-- The class name of `GameElement` itself, the value of
`self.__class__.__name__` when the base class is instantiated
directly. -/
def gameElementName : String :=
  "GameElement"

/-- The exceptions `GameElement.__init__` can raise: the
`RuntimeError` for an uninitialized pygame (carrying the class name of
the object under construction), the `ValueError` for a bad `image`
argument, and the `pygame.error` escaping from `pygame.image.load`. -/
inductive InitError where
  | uninitializedSubsystem (typeName : String)
  | invalidArgument (msg : String)
  | resourceLoadFailure (path : String)
deriving DecidableEq

/-- The message of each constructor exception, as formatted in the
source (`resourceLoadFailure`'s text is owned by pygame and not
modelled beyond naming the path). -/
def InitError.message : InitError → String
  | .uninitializedSubsystem typeName =>
      uninitMsgPre ++ typeName ++ uninitMsgPost
  | .invalidArgument msg => msg
  | .resourceLoadFailure path => path

/-- The `GameElement` instance state: its public instance variables
`image`, `rect`, `velocity` and `collidable`. -/
structure GameElement where
  image : Surface
  rect : Rect
  velocity : Vec2
  collidable : Bool
deriving DecidableEq, Repr

/-- The constructor `GameElement.__init__(image, x=0, y=0,
velocity=(0,0), collidable=True)`.  `env` is the ambient pygame state and `className`
is `self.__class__.__name__` (that of `GameElement` itself or of a
subclass).  Checks, in source order: pygame initialized; then the type
of `image` (loading it when it is a path); then sets `rect` from the
image with top-left `(x, y)`, and stores `velocity` and
`collidable`. -/
def GameElement.init (env : Pygame) (className : String) (image : ImageArg)
    (x y : ℤ) (velocity : Vec2) (collidable : Bool) :
    Except InitError GameElement :=
  if !env.initialized then
    .error (.uninitializedSubsystem className)
  else
    match image with
    | .path name =>
        match env.loadImage name with
        | some s =>
            let img := s.convert_alpha
            .ok { image := img, rect := img.get_rect x y,
                  velocity := velocity, collidable := collidable }
        | none => .error (.resourceLoadFailure name)
    | .surface s =>
        .ok { image := s, rect := s.get_rect x y,
              velocity := velocity, collidable := collidable }
    | .invalid =>
        .error (.invalidArgument invalidImageMsg)

/-- The method `GameElement.update(dt, events=None, screen=None)`:
`self.rect.move_ip(self.velocity.x * dt, self.velocity.y * dt)`.
`events` and `screen` are accepted and ignored by the base class. -/
def GameElement.update (g : GameElement) (dt : ℚ)
    (events : Option (List PygameEvent)) (screen : Option Surface) :
    GameElement :=
  let _ := events
  let _ := screen
  { g with rect := g.rect.move_ip (g.velocity.x * dt) (g.velocity.y * dt) }

/-- The method `GameElement.collided_with(other_element)`: the base body is
`pass`; both participants are returned unchanged. -/
def GameElement.collided_with (g other : GameElement) :
    GameElement × GameElement :=
  (g, other)

/-- The method `GameElement.draw(screen)`: `screen.blit(self.image,
self.rect.topleft)`.  Returns the (unchanged) element together with
the updated screen. -/
def GameElement.draw (g : GameElement) (screen : ScreenTrace) :
    GameElement × ScreenTrace :=
  (g, screen.blit g.image (g.rect.x, g.rect.y))

/-- One call to a base operation of the per-frame protocol. -/
inductive Op where
  | update (dt : ℚ) (events : Option (List PygameEvent))
      (screen : Option Surface)
  | collidedWith (other : GameElement)
  | draw (screen : ScreenTrace)

/-- Apply one base operation to an element, keeping the element's
resulting state. -/
def GameElement.step (g : GameElement) : Op → GameElement
  | .update dt events screen => g.update dt events screen
  | .collidedWith other => (g.collided_with other).1
  | .draw screen => (g.draw screen).1

/-- Apply a sequence of base-operation calls to an element. -/
def GameElement.run (g : GameElement) : List Op → GameElement
  | [] => g
  | op :: ops => (g.step op).run ops

/-! ### Arithmetic facts about the truncation used by `move_ip` -/

/-- Truncation of an integer-valued rational is that integer. -/
theorem ratTrunc_intCast (n : ℤ) : ratTrunc ((n : ℚ)) = n := by
  simp [ratTrunc, Rat.num_intCast, Rat.den_intCast]

/-- Truncation of a rational equal to an integer is that integer. -/
theorem ratTrunc_eq_intCast {q : ℚ} {n : ℤ} (h : q = (n : ℚ)) :
    ratTrunc q = n := by
  rw [h]; exact ratTrunc_intCast n

/-- Truncation toward zero sends every rational of absolute value
below one to zero. -/
theorem ratTrunc_eq_zero_of_abs_lt_one {q : ℚ} (h : |q| < 1) :
    ratTrunc q = 0 := by
  have hd : (0 : ℚ) < (q.den : ℚ) := by
    exact_mod_cast q.den_pos
  have hnum : (q.num : ℚ) = q * (q.den : ℚ) :=
    (div_eq_iff hd.ne').mp (Rat.num_div_den q)
  have h1 : |(q.num : ℚ)| < (q.den : ℚ) := by
    calc |(q.num : ℚ)| = |q| * (q.den : ℚ) := by
          rw [hnum, abs_mul, abs_of_nonneg hd.le]
      _ < 1 * (q.den : ℚ) := mul_lt_mul_of_pos_right h hd
      _ = (q.den : ℚ) := one_mul _
  have h2 : |q.num| < (q.den : ℤ) := by exact_mod_cast h1
  rcases le_or_lt 0 q.num with h0 | h0
  · have : q.num < (q.den : ℤ) := by rwa [abs_of_nonneg h0] at h2
    exact Int.tdiv_eq_zero_of_lt h0 this
  · have hlt : -q.num < (q.den : ℤ) := by rwa [abs_of_neg h0] at h2
    have hz : (-q.num).tdiv q.den = 0 :=
      Int.tdiv_eq_zero_of_lt (by omega) hlt
    have hneg := Int.neg_tdiv q.num ((q.den : ℤ))
    unfold ratTrunc
    omega

/-! ### Preservation of size and image across the base operations -/

/-- One base-operation call changes neither the image nor the rect's
width or height. -/
theorem GameElement.step_preserves_size (g : GameElement) (op : Op) :
    (g.step op).image = g.image ∧ (g.step op).rect.width = g.rect.width ∧
      (g.step op).rect.height = g.rect.height := by
  cases op <;>
    simp [GameElement.step, GameElement.update, Rect.move_ip,
      GameElement.collided_with, GameElement.draw]

/-- A sequence of base-operation calls changes neither the image nor
the rect's width or height. -/
theorem GameElement.run_preserves_size (g : GameElement) (ops : List Op) :
    (g.run ops).image = g.image ∧ (g.run ops).rect.width = g.rect.width ∧
      (g.run ops).rect.height = g.rect.height := by
  induction ops generalizing g with
  | nil => exact ⟨rfl, rfl, rfl⟩
  | cons op ops ih =>
    have h := GameElement.step_preserves_size g op
    have h2 := ih (g.step op)
    exact ⟨h2.1.trans h.1, h2.2.1.trans h.2.1, h2.2.2.trans h.2.2⟩

/-! ### Concrete objects used by witnesses and counterexamples -/

/-- A 32-by-16 pixel surface, the image of the spec's worked
scenario. -/
def surf32 : Surface := { width := 32, height := 16 }

/-- A pygame state in which `pygame.init()` has been called and every
image file loads as the 32-by-16 surface. -/
def envInit : Pygame := { initialized := true, loadImage := fun _ => some surf32 }

/-- A pygame state in which `pygame.init()` has not been called. -/
def envUninit : Pygame := { initialized := false, loadImage := fun _ => none }

/-- The velocity (0.1, -0.05) pixels per millisecond of the spec's
worked scenario. -/
def exampleVelocity : Vec2 := { x := 1/10, y := -1/20 }

/-- The element of the spec's worked scenario: the 32-by-16 image at
(10, 20) with velocity (0.1, -0.05), collidable. -/
def exampleElem : GameElement :=
  { image := surf32, rect := { x := 10, y := 20, width := 32, height := 16 },
    velocity := exampleVelocity, collidable := true }

/-- An element with the fractional velocity (0.5, 0), on which one
update over dt = 1 must move by less than a pixel. -/
def halfElem : GameElement :=
  { image := { width := 1, height := 1 },
    rect := { x := 0, y := 0, width := 1, height := 1 },
    velocity := { x := 1/2, y := 0 }, collidable := true }

/-- Characterization of a successful construction: the resulting
rect has top-left `(x, y)` and the dimensions of the stored image. -/
theorem GameElement.init_ok_rect
    (env : Pygame) (className : String) (image : ImageArg) (x y : ℤ)
    (v : Vec2) (c : Bool) (g : GameElement)
    (h : GameElement.init env className image x y v c = .ok g) :
    g.rect.x = x ∧ g.rect.y = y ∧
    g.rect.width = g.image.width ∧ g.rect.height = g.image.height := by
  cases hB : env.initialized with
  | false => simp [GameElement.init, hB] at h
  | true =>
    rcases image with name | s | _
    · rcases hload : env.loadImage name with _ | s
      · simp [GameElement.init, hB, hload] at h
      · simp only [GameElement.init, hB, Bool.not_true, Bool.false_eq_true,
          if_false, hload, Except.ok.injEq] at h
        rw [← h]
        exact ⟨rfl, rfl, rfl, rfl⟩
    · simp only [GameElement.init, hB, Bool.not_true, Bool.false_eq_true,
        if_false, Except.ok.injEq] at h
      rw [← h]
      exact ⟨rfl, rfl, rfl, rfl⟩
    · simp [GameElement.init, hB] at h

/-! ### Claim theorems -/

/-- C2: for every valid construction with position arguments `x`, `y`,
immediately after construction `rect.topleft` equals `(x, y)` and
`rect.size` equals the image's dimensions. -/
theorem rect_topleft_and_size_after_construction
    (env : Pygame) (className : String) (image : ImageArg) (x y : ℤ)
    (v : Vec2) (c : Bool) (g : GameElement)
    (h : GameElement.init env className image x y v c = .ok g) :
    g.rect.x = x ∧ g.rect.y = y ∧
    g.rect.width = g.image.width ∧ g.rect.height = g.image.height :=
  GameElement.init_ok_rect env className image x y v c g h

/-- C2 witness: the scenario construction at (10, 20) with the
32-by-16 surface yields exactly those top-left coordinates and
size. -/
theorem rect_topleft_and_size_after_construction_witness :
    GameElement.init envInit gameElementName (.surface surf32) 10 20
        exampleVelocity true = .ok exampleElem ∧
    (exampleElem.rect.x = 10 ∧ exampleElem.rect.y = 20 ∧
      exampleElem.rect.width = exampleElem.image.width ∧
      exampleElem.rect.height = exampleElem.image.height) :=
  ⟨rfl, rect_topleft_and_size_after_construction envInit gameElementName
    (.surface surf32) 10 20 exampleVelocity true exampleElem rfl⟩

/-- C7: the base `collided_with` mutates neither participant: `rect`,
`velocity` and `collidable` of both elements are unchanged. -/
theorem collided_with_base_is_noop (g other : GameElement) :
    (g.collided_with other).1.rect = g.rect ∧
    (g.collided_with other).1.velocity = g.velocity ∧
    (g.collided_with other).1.collidable = g.collidable ∧
    (g.collided_with other).2.rect = other.rect ∧
    (g.collided_with other).2.velocity = other.velocity ∧
    (g.collided_with other).2.collidable = other.collidable :=
  ⟨rfl, rfl, rfl, rfl, rfl, rfl⟩

/-- C8: `draw` leaves the element's `rect`, `velocity`, `image` and
`collidable` unchanged, and its only effect on the screen is one blit
of `image` at `rect`'s top-left position. -/
theorem draw_mutates_nothing_and_blits_image_at_topleft
    (g : GameElement) (screen : ScreenTrace) :
    (g.draw screen).1.rect = g.rect ∧
    (g.draw screen).1.velocity = g.velocity ∧
    (g.draw screen).1.image = g.image ∧
    (g.draw screen).1.collidable = g.collidable ∧
    (g.draw screen).2 =
      List.append screen [{ src := g.image, pos := (g.rect.x, g.rect.y) }] :=
  ⟨rfl, rfl, rfl, rfl, rfl⟩

/-- C1 counterexample: with velocity (0.5, 0) and dt = 1 the update
does not translate the position by exactly `velocity.x * dt`: the
rect's integer x stays at 0 while `0 + 0.5 * 1 = 0.5`. -/
theorem update_exact_translation_counterexample :
    ¬ (((halfElem.update 1 none none).rect.x : ℚ) =
        (halfElem.rect.x : ℚ) + halfElem.velocity.x * 1) := by
  intro hc
  have h1 : |halfElem.velocity.x * 1| < 1 := by
    simp only [halfElem]
    rw [abs_lt]
    norm_num
  have e1 : (halfElem.update 1 none none).rect.x = halfElem.rect.x := by
    show halfElem.rect.x + ratTrunc (halfElem.velocity.x * 1) = halfElem.rect.x
    rw [ratTrunc_eq_zero_of_abs_lt_one h1, add_zero]
  rw [e1] at hc
  simp only [halfElem] at hc
  norm_num at hc

/-- C1 (amended): `update(dt)` translates the rect's top-left in place
by the truncation toward zero of `(velocity.x * dt, velocity.y * dt)`;
in particular, for the 32-by-16 element constructed at (10, 20) with
velocity (0.1, -0.05) — where every displacement is an exact integer —
`update(100)` yields position (20, 15) and a further `update(200)`
yields (40, 5). -/
theorem update_translates_by_truncation_and_scenario :
    (∀ (g : GameElement) (dt : ℚ) (events : Option (List PygameEvent))
        (screen : Option Surface),
      (g.update dt events screen).rect.x
          = g.rect.x + ratTrunc (g.velocity.x * dt) ∧
      (g.update dt events screen).rect.y
          = g.rect.y + ratTrunc (g.velocity.y * dt)) ∧
    GameElement.init envInit gameElementName (.surface surf32) 10 20
        exampleVelocity true = .ok exampleElem ∧
    (exampleElem.update 100 none none).rect.x = 20 ∧
    (exampleElem.update 100 none none).rect.y = 15 ∧
    ((exampleElem.update 100 none none).update 200 none none).rect.x = 40 ∧
    ((exampleElem.update 100 none none).update 200 none none).rect.y = 5 := by
  have hx1 : ratTrunc (exampleVelocity.x * 100) = 10 :=
    ratTrunc_eq_intCast (by norm_num [exampleVelocity])
  have hy1 : ratTrunc (exampleVelocity.y * 100) = -5 :=
    ratTrunc_eq_intCast (by norm_num [exampleVelocity])
  have hx2 : ratTrunc (exampleVelocity.x * 200) = 20 :=
    ratTrunc_eq_intCast (by norm_num [exampleVelocity])
  have hy2 : ratTrunc (exampleVelocity.y * 200) = -10 :=
    ratTrunc_eq_intCast (by norm_num [exampleVelocity])
  refine ⟨fun g dt events screen => ⟨rfl, rfl⟩, rfl, ?_, ?_, ?_, ?_⟩
  · show (10 : ℤ) + ratTrunc (exampleVelocity.x * 100) = 20
    rw [hx1]
    norm_num
  · show (20 : ℤ) + ratTrunc (exampleVelocity.y * 100) = 15
    rw [hy1]
    norm_num
  · show (10 : ℤ) + ratTrunc (exampleVelocity.x * 100)
        + ratTrunc (exampleVelocity.x * 200) = 40
    rw [hx1, hx2]
    norm_num
  · show (20 : ℤ) + ratTrunc (exampleVelocity.y * 100)
        + ratTrunc (exampleVelocity.y * 200) = 5
    rw [hy1, hy2]
    norm_num

/-- C10: the displacement `update(dt)` applies to each rect coordinate
is `velocity * dt` truncated toward zero to an integer (the
coordinates are integers by the type of `Rect`); whenever
`|velocity.x * dt| < 1` the x position does not change, and likewise
for y. -/
theorem update_displacement_is_truncation_toward_zero
    (g : GameElement) (dt : ℚ) (events : Option (List PygameEvent))
    (screen : Option Surface) :
    (g.update dt events screen).rect.x
        = g.rect.x + ratTrunc (g.velocity.x * dt) ∧
    (g.update dt events screen).rect.y
        = g.rect.y + ratTrunc (g.velocity.y * dt) ∧
    (|g.velocity.x * dt| < 1 →
      (g.update dt events screen).rect.x = g.rect.x) ∧
    (|g.velocity.y * dt| < 1 →
      (g.update dt events screen).rect.y = g.rect.y) := by
  refine ⟨rfl, rfl, fun h => ?_, fun h => ?_⟩
  · show g.rect.x + ratTrunc (g.velocity.x * dt) = g.rect.x
    rw [ratTrunc_eq_zero_of_abs_lt_one h, add_zero]
  · show g.rect.y + ratTrunc (g.velocity.y * dt) = g.rect.y
    rw [ratTrunc_eq_zero_of_abs_lt_one h, add_zero]

/-- C10 witness: for the scenario element and dt = 5 both
sub-pixel displacements (0.5 and -0.25) leave the position
unchanged. -/
theorem update_displacement_is_truncation_toward_zero_witness :
    (|exampleElem.velocity.x * 5| < 1 ∧ |exampleElem.velocity.y * 5| < 1) ∧
    (exampleElem.update 5 none none).rect.x = exampleElem.rect.x ∧
    (exampleElem.update 5 none none).rect.y = exampleElem.rect.y := by
  have hx : |exampleElem.velocity.x * 5| < 1 := by
    simp only [exampleElem, exampleVelocity]
    rw [abs_lt]
    norm_num
  have hy : |exampleElem.velocity.y * 5| < 1 := by
    simp only [exampleElem, exampleVelocity]
    rw [abs_lt]
    norm_num
  exact ⟨⟨hx, hy⟩,
    (update_displacement_is_truncation_toward_zero exampleElem 5 none none).2.2.1 hx,
    (update_displacement_is_truncation_toward_zero exampleElem 5 none none).2.2.2 hy⟩

/-- C3 counterexample: with velocity (0.5, 0), `update(1)` twice
leaves x at 0, while the claimed `initial + vx * (dt1 + dt2)` is 1 —
update is not linear across calls for fractional velocities. -/
theorem update_composition_counterexample :
    ¬ ((((halfElem.update 1 none none).update 1 none none).rect.x : ℚ) =
        (halfElem.rect.x : ℚ) + halfElem.velocity.x * (1 + 1)) := by
  intro hc
  have h1 : |halfElem.velocity.x * 1| < 1 := by
    simp only [halfElem]
    rw [abs_lt]
    norm_num
  have e2 : ((halfElem.update 1 none none).update 1 none none).rect.x
      = halfElem.rect.x := by
    show halfElem.rect.x + ratTrunc (halfElem.velocity.x * 1)
        + ratTrunc (halfElem.velocity.x * 1) = halfElem.rect.x
    rw [ratTrunc_eq_zero_of_abs_lt_one h1, add_zero, add_zero]
  rw [e2] at hc
  simp only [halfElem] at hc
  norm_num at hc

/-- C3 (amended): successive `update(dt1)`, `update(dt2)` compose
additively on the truncated displacements; when each per-call
displacement `velocity * dt` is an exact integer (as in the spec's
scenario), the resulting position equals the initial position plus
`(vx * (dt1 + dt2), vy * (dt1 + dt2))`. -/
theorem update_composes_additively_on_integer_displacements
    (g : GameElement) (dt1 dt2 : ℚ)
    (ev1 ev2 : Option (List PygameEvent)) (sc1 sc2 : Option Surface)
    (n1 m1 n2 m2 : ℤ)
    (hx1 : g.velocity.x * dt1 = (n1 : ℚ)) (hy1 : g.velocity.y * dt1 = (m1 : ℚ))
    (hx2 : g.velocity.x * dt2 = (n2 : ℚ)) (hy2 : g.velocity.y * dt2 = (m2 : ℚ)) :
    ((((g.update dt1 ev1 sc1).update dt2 ev2 sc2).rect.x : ℚ) =
      (g.rect.x : ℚ) + g.velocity.x * (dt1 + dt2)) ∧
    ((((g.update dt1 ev1 sc1).update dt2 ev2 sc2).rect.y : ℚ) =
      (g.rect.y : ℚ) + g.velocity.y * (dt1 + dt2)) := by
  constructor
  · have e : ((g.update dt1 ev1 sc1).update dt2 ev2 sc2).rect.x
        = g.rect.x + ratTrunc (g.velocity.x * dt1)
          + ratTrunc (g.velocity.x * dt2) := rfl
    rw [e, ratTrunc_eq_intCast hx1, ratTrunc_eq_intCast hx2, mul_add,
      hx1, hx2]
    push_cast
    ring
  · have e : ((g.update dt1 ev1 sc1).update dt2 ev2 sc2).rect.y
        = g.rect.y + ratTrunc (g.velocity.y * dt1)
          + ratTrunc (g.velocity.y * dt2) := rfl
    rw [e, ratTrunc_eq_intCast hy1, ratTrunc_eq_intCast hy2, mul_add,
      hy1, hy2]
    push_cast
    ring

/-- C3 witness: the scenario element with dt1 = 100, dt2 = 200 has
integer per-call displacements and its final position equals the
initial position plus `velocity * 300`. -/
theorem update_composes_additively_witness :
    (exampleElem.velocity.x * 100 = ((10 : ℤ) : ℚ) ∧
     exampleElem.velocity.y * 100 = ((-5 : ℤ) : ℚ) ∧
     exampleElem.velocity.x * 200 = ((20 : ℤ) : ℚ) ∧
     exampleElem.velocity.y * 200 = ((-10 : ℤ) : ℚ)) ∧
    ((((exampleElem.update 100 none none).update 200 none none).rect.x : ℚ) =
      (exampleElem.rect.x : ℚ) + exampleElem.velocity.x * (100 + 200)) ∧
    ((((exampleElem.update 100 none none).update 200 none none).rect.y : ℚ) =
      (exampleElem.rect.y : ℚ) + exampleElem.velocity.y * (100 + 200)) := by
  have hx1 : exampleElem.velocity.x * 100 = ((10 : ℤ) : ℚ) := by
    simp only [exampleElem, exampleVelocity]
    norm_num
  have hy1 : exampleElem.velocity.y * 100 = ((-5 : ℤ) : ℚ) := by
    simp only [exampleElem, exampleVelocity]
    norm_num
  have hx2 : exampleElem.velocity.x * 200 = ((20 : ℤ) : ℚ) := by
    simp only [exampleElem, exampleVelocity]
    norm_num
  have hy2 : exampleElem.velocity.y * 200 = ((-10 : ℤ) : ℚ) := by
    simp only [exampleElem, exampleVelocity]
    norm_num
  exact ⟨⟨hx1, hy1, hx2, hy2⟩,
    (update_composes_additively_on_integer_displacements exampleElem 100 200
      none none none none 10 (-5) 20 (-10) hx1 hy1 hx2 hy2).1,
    (update_composes_additively_on_integer_displacements exampleElem 100 200
      none none none none 10 (-5) 20 (-10) hx1 hy1 hx2 hy2).2⟩

/-- C4: with pygame uninitialized, construction fails with the
uninitialized-subsystem error regardless of the other arguments, and
that error's message contains the offending type's name. -/
theorem construction_fails_uninitialized_subsystem
    (env : Pygame) (className : String) (image : ImageArg) (x y : ℤ)
    (v : Vec2) (c : Bool) (h : env.initialized = false) :
    GameElement.init env className image x y v c =
      .error (.uninitializedSubsystem className) ∧
    (InitError.uninitializedSubsystem className).message =
      uninitMsgPre ++ className ++ uninitMsgPost := by
  constructor
  · simp [GameElement.init, h]
  · rfl

/-- C4 witness: constructing in the uninitialized state with an
(also invalid) image argument fails with the uninitialized-subsystem
error naming `GameElement`. -/
theorem construction_fails_uninitialized_subsystem_witness :
    envUninit.initialized = false ∧
    (GameElement.init envUninit gameElementName .invalid 0 0
        exampleVelocity true =
      .error (.uninitializedSubsystem gameElementName) ∧
    (InitError.uninitializedSubsystem gameElementName).message =
      uninitMsgPre ++ gameElementName ++ uninitMsgPost) :=
  ⟨rfl, construction_fails_uninitialized_subsystem envUninit gameElementName
    .invalid 0 0 exampleVelocity true rfl⟩

/-- C5: with pygame initialized, an `image` argument that is neither a
string nor a surface makes construction fail with the
invalid-argument error. -/
theorem construction_fails_invalid_argument
    (env : Pygame) (className : String) (x y : ℤ) (v : Vec2) (c : Bool)
    (h : env.initialized = true) :
    GameElement.init env className .invalid x y v c =
      .error (.invalidArgument invalidImageMsg) := by
  simp [GameElement.init, h]

/-- C5 witness: the invalid image argument is rejected at (0, 0) in
the initialized state. -/
theorem construction_fails_invalid_argument_witness :
    envInit.initialized = true ∧
    GameElement.init envInit gameElementName .invalid 0 0
        exampleVelocity true =
      .error (.invalidArgument invalidImageMsg) :=
  ⟨rfl, construction_fails_invalid_argument envInit gameElementName 0 0
    exampleVelocity true rfl⟩

/-- C9: the pygame-initialized check precedes the image-type check:
an uninitialized state yields the uninitialized-subsystem error even
for an invalid image, and an invalid-argument error can only arise
with the subsystem initialized. -/
theorem initialization_check_precedes_image_check
    (env : Pygame) (className : String) (x y : ℤ) (v : Vec2) (c : Bool) :
    (env.initialized = false →
      GameElement.init env className .invalid x y v c =
        .error (.uninitializedSubsystem className)) ∧
    (∀ (image : ImageArg) (msg : String),
      GameElement.init env className image x y v c =
        .error (.invalidArgument msg) →
      env.initialized = true) := by
  constructor
  · intro h
    simp [GameElement.init, h]
  · intro image msg h
    cases hB : env.initialized with
    | true => rfl
    | false => simp [GameElement.init, hB] at h

/-- C9 witness: in the uninitialized state the invalid image argument
is reported as an uninitialized subsystem, not as an invalid
argument. -/
theorem initialization_check_precedes_image_check_witness :
    envUninit.initialized = false ∧
    GameElement.init envUninit gameElementName .invalid 0 0
        exampleVelocity true =
      .error (.uninitializedSubsystem gameElementName) :=
  ⟨rfl, (initialization_check_precedes_image_check envUninit gameElementName
    0 0 exampleVelocity true).1 rfl⟩

/-- An empty drawing target. -/
def emptyScreen : ScreenTrace := List.nil

/-- A sample per-frame call sequence over the base operations. -/
def exampleOps : List Op :=
  [Op.update 100 none none, Op.collidedWith halfElem, Op.draw emptyScreen,
   Op.update 200 none none, Op.draw emptyScreen]

/-- C6: after any successful construction, any sequence of base
`update`, `collided_with` and `draw` calls leaves the rect's width and
height equal to the source image's dimensions (and the image itself
unchanged). -/
theorem rect_size_equals_image_size_for_lifetime
    (env : Pygame) (className : String) (image : ImageArg) (x y : ℤ)
    (v : Vec2) (c : Bool) (g : GameElement)
    (h : GameElement.init env className image x y v c = .ok g)
    (ops : List Op) :
    (g.run ops).rect.width = g.image.width ∧
    (g.run ops).rect.height = g.image.height ∧
    (g.run ops).image = g.image := by
  have h0 := GameElement.init_ok_rect env className image x y v c g h
  have hrun := GameElement.run_preserves_size g ops
  exact ⟨hrun.2.1.trans h0.2.2.1, hrun.2.2.trans h0.2.2.2, hrun.1⟩

/-- C6 witness: the scenario element keeps its 32-by-16 rect size
across a concrete update/collision/draw call sequence. -/
theorem rect_size_equals_image_size_for_lifetime_witness :
    GameElement.init envInit gameElementName (.surface surf32) 10 20
        exampleVelocity true = .ok exampleElem ∧
    ((exampleElem.run exampleOps).rect.width = exampleElem.image.width ∧
     (exampleElem.run exampleOps).rect.height = exampleElem.image.height ∧
     (exampleElem.run exampleOps).image = exampleElem.image) :=
  ⟨rfl, rect_size_equals_image_size_for_lifetime envInit gameElementName
    (.surface surf32) 10 20 exampleVelocity true exampleElem rfl exampleOps⟩
